import Mathlib

/-!
Verification development for the Hyytiälä 2016 chamber flux processing
script (`hyy16_chdata_proc_all.py`).

Modelling conventions:
* Floating-point numbers are modelled by `ℚ`.  `NaN` (produced in the
  source via empty-slice statistics, invalid parses, and propagated by
  arithmetic) is modelled by `Option ℚ` with `none` standing for NaN.
* NumPy comparison semantics are mirrored: any comparison with NaN is
  false (`nan_gt`, `nan_lt`).
* The transcendental functions `np.exp` and `np.sqrt` (used only inside
  the least-squares fits) are modelled by oracle parameters
  `expf sqrtf : ℚ → ℚ`; every property proved here holds for all
  oracles, so nothing depends on their numeric behaviour.
* `np.pi` is the IEEE-754 double closest to π, an exact rational.
* Division by zero (which cannot occur on the reachable inputs of the
  source) is modelled as undefined (`none`).
-/

namespace Hyy16

/-- NaN-aware binary arithmetic on `Option ℚ`: NaN propagates. -/
def o2 (f : ℚ → ℚ → ℚ) : Option ℚ → Option ℚ → Option ℚ
  | some a, some b => some (f a b)
  | _, _ => none

/-- NaN-aware addition. -/
def oadd : Option ℚ → Option ℚ → Option ℚ := o2 (· + ·)

/-- NaN-aware subtraction. -/
def osub : Option ℚ → Option ℚ → Option ℚ := o2 (· - ·)

/-- NaN-aware multiplication. -/
def omul : Option ℚ → Option ℚ → Option ℚ := o2 (· * ·)

/-- NaN-aware division; a zero divisor is modelled as undefined. -/
def odiv : Option ℚ → Option ℚ → Option ℚ
  | some a, some b => if b = 0 then none else some (a / b)
  | _, _ => none

/-- NaN-aware negation. -/
def oneg : Option ℚ → Option ℚ
  | some a => some (-a)
  | none => none

/-- NaN-aware absolute value. -/
def oabs : Option ℚ → Option ℚ
  | some a => some |a|
  | none => none

/-- NumPy semantics of `x > c`: false when `x` is NaN. -/
def nan_gt (a : Option ℚ) (c : ℚ) : Bool :=
  match a with
  | some x => decide (x > c)
  | none => false

/-- NumPy semantics of `x < c`: false when `x` is NaN. -/
def nan_lt (a : Option ℚ) (c : ℚ) : Bool :=
  match a with
  | some x => decide (x < c)
  | none => false

/-- Model of `np.nansum`: sum of the finite entries, NaN entries contribute 0. -/
def nansum (l : List (Option ℚ)) : ℚ :=
  (l.filterMap id).sum

/-- Insertion into a sorted list (model of the NumPy sort on finite data). -/
def insertSorted (x : ℚ) : List ℚ → List ℚ
  | [] => [x]
  | y :: ys => if x ≤ y then x :: y :: ys else y :: insertSorted x ys

/-- Sorting of a rational list. -/
def sortQ (l : List ℚ) : List ℚ :=
  l.foldr insertSorted []

/-- Median of a list of finite values (`np.nanmedian` on all-finite data);
NaN (`none`) on an empty list. -/
def medianQ (l : List ℚ) : Option ℚ :=
  let s := sortQ l
  let n := s.length
  if n = 0 then none
  else if n % 2 = 1 then some (s.getD (n / 2) 0)
  else some ((s.getD (n / 2 - 1) 0 + s.getD (n / 2) 0) / 2)

/-- Model of `np.nanmedian`: median of the finite entries, NaN if none are finite. -/
def nanmedian (l : List (Option ℚ)) : Option ℚ :=
  medianQ (l.filterMap id)

/-- Model of `np.percentile` with default linear interpolation, on sorted data `s`
(the source always calls it with `p = 25` or `p = 75`). -/
def percentileSorted (s : List ℚ) (p : ℚ) : ℚ :=
  let n := s.length
  let h : ℚ := ((n : ℚ) - 1) * p / 100
  let i : ℕ := (Int.floor h).toNat
  let frac : ℚ := h - (i : ℚ)
  s.getD i 0 + frac * (s.getD (i + 1) (s.getD i 0) - s.getD i 0)

/-- The function `IQR_func` of the source: interquartile range of the finite entries of
`x` via `np.nanpercentile(x, [25, 75])`, NaN when no entry is finite. -/
def IQR_func (x : List (Option ℚ)) : Option ℚ :=
  let fin := x.filterMap id
  if fin.length = 0 then none
  else
    let s := sortQ fin
    some (percentileSorted s 75 - percentileSorted s 25)

/-! ### Chamber constants (source: "Chamber constants" section) -/

/-- Small leaf chamber volume, 1.8 L (m³). -/
def V_lc_small : ℚ := 1.8e-3

/-- Large leaf chamber volume, 3.5 L (m³). -/
def V_lc_large : ℚ := 3.5e-3

/-- Extra large leaf chamber volume, 4.7 L (m³). -/
def V_lc_XL : ℚ := 4.7e-3

/-- Slide chamber volume, 1.0 L (m³). -/
def V_lc_slide : ℚ := 1.0e-3

/-- Soil chamber area (m²), LI-8100-104 long term chamber. -/
def A_sc : ℚ := 317.8e-4

/-- Collar height (m). -/
def col_ht : ℚ := 2e-2

/-- Soil chamber volume (m³). -/
def V_sc : ℚ := 4076.1e-6 + col_ht * A_sc

/-- The constant `np.pi` as the exact rational value of the IEEE-754 double closest
to π, i.e. 884279719003555 / 2⁴⁸. -/
def np_pi : ℚ := 884279719003555 / 281474976710656

/-- Transparent soil chamber area (m²). -/
def A_tsc : ℚ := (22 - 2 * 0.3) ^ 2 * np_pi / 4 * 1e-4

/-- Transparent soil chamber volume (m³). -/
def V_tsc : ℚ := (7.25 + 4) * 1e-2 * A_tsc

/-- Large soil chamber (soil chamber #3) area (m²). -/
def A_lsc : ℚ := 0.4 * 0.8

/-- Large soil chamber volume (m³). -/
def V_lsc : ℚ := 0.4 * 0.8 * (0.17 + 0.10)

/-! ### The chamber schedule lookup table (`chamber_lookup_table_func`)

The source builds a pandas DataFrame column by column: first the chamber
meta information (epoch selection by `doy`, with `set_value` patches for
narrow special-case windows), then the relative schedule offsets, then
leaf/soil areas and chamber volumes, then the "no chamber connected"
shoot-number overrides.  Each stage is mirrored below; `set_value` on a
single cell is mirrored by `modifyRow`. -/

/-- One row of the chamber lookup table.  Fields appear in the order the
source adds the corresponding DataFrame columns. -/
structure ChamberRow where
  ch_no : ℤ := 0
  ch_label : String := ""
  shoot_no : ℤ := 0
  flowmeter_no : ℤ := 0
  TC_no : ℤ := 0
  PAR_no : ℤ := 0
  ch_start : ℚ := 0
  ch_o_b : ℚ := 0
  ch_cls : ℚ := 0
  ch_o_a : ℚ := 0
  ch_end : ℚ := 0
  A_ch : ℚ := 0
  V_ch : ℚ := 0
deriving Inhabited, DecidableEq, Repr

/-- Build a meta row (first stage columns; schedule and area columns are
added by the later stages, as in the source). -/
def mkMeta (no : ℤ) (label : String) (shoot fm tc par : ℤ) : ChamberRow :=
  { ch_no := no, ch_label := label, shoot_no := shoot,
    flowmeter_no := fm, TC_no := tc, PAR_no := par }

/-- Model of `DataFrame.set_value`: update the cell at row index `i` (out-of-range
indices never occur in the source). -/
def modifyRow : List ChamberRow → ℕ → (ChamberRow → ChamberRow) → List ChamberRow
  | [], _, _ => []
  | r :: rs, 0, f => f r :: rs
  | r :: rs, Nat.succ n, f => r :: modifyRow rs n f

/-- Update of the `ch_label` cell of row `i`. -/
def setLabel (l : List ChamberRow) (i : ℕ) (v : String) : List ChamberRow :=
  modifyRow l i (fun r => { r with ch_label := v })

/-- Update of the `shoot_no` cell of row `i`. -/
def setShoot (l : List ChamberRow) (i : ℕ) (v : ℤ) : List ChamberRow :=
  modifyRow l i (fun r => { r with shoot_no := v })

/-- Update of the `PAR_no` cell of row `i`. -/
def setPAR (l : List ChamberRow) (i : ℕ) (v : ℤ) : List ChamberRow :=
  modifyRow l i (fun r => { r with PAR_no := v })

/-- Update of the `A_ch` cell of row `i`. -/
def setA (l : List ChamberRow) (i : ℕ) (v : ℚ) : List ChamberRow :=
  modifyRow l i (fun r => { r with A_ch := v })

/-- Update of the `V_ch` cell of row `i`. -/
def setV (l : List ChamberRow) (i : ℕ) (v : ℚ) : List ChamberRow :=
  modifyRow l i (fun r => { r with V_ch := v })

/-- The source idiom of conditionally patching the table
(`if <window>: chlut = chlut.set_value(...)`): apply `f` when `c` holds. -/
def patchIf (c : Prop) [Decidable c] (f : List ChamberRow → List ChamberRow)
    (rows : List ChamberRow) : List ChamberRow :=
  if c then f rows else rows

/-- First stage of `chamber_lookup_table_func`: epoch selection for the
meta columns (`ch_no`, `ch_label`, `shoot_no`, `flowmeter_no`, `TC_no`,
`PAR_no`), with the mid-epoch `set_value` patches.  The final source
branch is `elif doy >= 166.5`, the exact complement of the previous
conditions, mirrored here by `else`. -/
def epoch_meta (doy : ℚ) : List ChamberRow :=
  if doy < 103 + 11/24 then
    [mkMeta 1 "LC-S-B" 3 1 2 2, mkMeta 2 "LC-S-A" 1 2 1 1,
     mkMeta 3 "LC-L-A" 2 3 3 1, mkMeta 4 "SC1" (-1) 5 4 (-1),
     mkMeta 5 "SC2" (-1) 4 5 (-1)]
  else if 103 + 11/24 ≤ doy ∧ doy < 111.5 then
    patchIf (108 + 8/24 + 25/1440 ≤ doy)
      (fun rows => setShoot (setLabel rows 0 "LC-XL+rubber") 0 7)
      [mkMeta 1 "LC-S-B" 6 1 2 2, mkMeta 2 "LC-S-A" 4 2 1 1,
       mkMeta 3 "LC-L-A" 5 3 3 1, mkMeta 4 "SC1" (-1) 5 4 (-1),
       mkMeta 5 "SC2" (-1) 4 5 (-1)]
  else if 111.5 ≤ doy ∧ doy < 119 then
    patchIf (112 + 8.5/24 ≤ doy) (fun rows => setShoot rows 2 11)
      [mkMeta 1 "LC-S-A" 9 1 2 2, mkMeta 2 "LC-S-B" 8 2 1 2,
       mkMeta 3 "LC-XL" 10 3 3 1, mkMeta 4 "SC1" (-1) 5 4 (-1),
       mkMeta 5 "SC2" (-1) 4 5 (-1)]
  else if 119 ≤ doy ∧ doy < 140 + 11.5/24 then
    [mkMeta 1 "LC-S-A" 9 1 2 2, mkMeta 2 "LC-S-B" 8 2 1 2,
     mkMeta 3 "LC-XL" 11 3 3 1, mkMeta 6 "SC3" (-1) 4 6 (-1),
     mkMeta 4 "SC1" (-1) 5 4 (-1), mkMeta 5 "SC2" (-1) 4 5 (-1)]
  else if 140 + 11.5/24 ≤ doy ∧ doy < 145 + (10 + 11/60)/24 then
    [mkMeta 1 "LC-S-B" 9 1 2 2, mkMeta 2 "LC-S-A" 8 2 1 2,
     mkMeta 3 "LC-XL" 11 3 3 1, mkMeta 6 "SC3" (-1) 4 6 (-1),
     mkMeta 4 "SC1" (-1) 5 4 (-1), mkMeta 5 "SC2" (-1) 4 5 (-1)]
  else if 145 + (10 + 11/60)/24 ≤ doy ∧ doy < 154 + (14 + 8/60)/24 then
    [mkMeta 1 "LC-S-A" 12 1 2 2, mkMeta 2 "LC-S-B" 8 2 1 2,
     mkMeta 3 "LC-XL" 11 3 3 1, mkMeta 6 "SC3" (-1) 4 6 (-1),
     mkMeta 4 "SC1" (-1) 5 4 (-1), mkMeta 5 "SC2" (-1) 4 5 (-1)]
  else if 154 + (14 + 8/60)/24 ≤ doy ∧ doy < 166.5 then
    patchIf (158 + 9/24 ≤ doy) (fun rows => setShoot rows 0 14)
      [mkMeta 1 "LC-Slide" 13 1 2 1, mkMeta 2 "LC-S-B" 8 2 1 2,
       mkMeta 3 "LC-XL" 11 3 3 1, mkMeta 6 "SC3" (-1) 4 6 (-1),
       mkMeta 4 "SC1" (-1) 5 4 (-1), mkMeta 5 "SC2" (-1) 4 5 (-1)]
  else
    patchIf (241.5 ≤ doy ∧ doy ≤ 255 + 11/24)
      (fun rows =>
        if 245 + (9 + 40/60)/24 ≤ doy ∧ doy ≤ 252 + (9 + 31/60)/24 then
          setShoot (setShoot rows 2 17) 0 19
        else setShoot (setShoot rows 2 17) 1 18)
      (patchIf (175 + 10/24 ≤ doy) (fun rows => setPAR (setShoot rows 1 16) 1 1)
        [mkMeta 1 "LC-S-A" 12 1 2 2, mkMeta 2 "LC-S-B" 8 2 1 2,
         mkMeta 3 "LC-Slide" 15 3 3 1, mkMeta 6 "SC3" (-1) 4 6 (-1),
         mkMeta 4 "SC1" (-1) 5 4 (-1), mkMeta 5 "SC2" (-1) 4 5 (-1)])

/-- Relative schedule offsets of one chamber (fractions of a day). -/
structure SchedEntry where
  ch_start : ℚ
  ch_o_b : ℚ
  ch_cls : ℚ
  ch_o_a : ℚ
  ch_end : ℚ
deriving Inhabited

/-- Schedule for the 1-hour cycles (before 04/28/2016 17:00 UTC+2). -/
def sched_hourly : List SchedEntry :=
  [⟨11/1440, 0/1440, 1/1440, 5/1440, 8/1440⟩,
   ⟨19/1440, 0/1440, 1/1440, 5/1440, 8/1440⟩,
   ⟨27/1440, 0/1440, 1/1440, 5/1440, 8/1440⟩,
   ⟨41.5/1440, 0/1440, 1.5/1440, 8.5/1440, 10.5/1440⟩,
   ⟨50/1440, 0/1440, 2/1440, 9/1440, 10/1440⟩]

/-- Schedule for the 1.5-hour cycles (after 04/28/2016 17:00 UTC+2);
rows follow the chamber order 1-2-3-6-4-5. -/
def sched_90min : List SchedEntry :=
  [⟨12/1440, 0/1440, 1/1440, 5/1440, 9/1440⟩,
   ⟨21/1440, 0/1440, 1/1440, 5/1440, 9/1440⟩,
   ⟨30/1440, 0/1440, 1/1440, 5/1440, 9/1440⟩,
   ⟨49/1440, 0/1440, 2/1440, 10/1440, 13/1440⟩,
   ⟨65/1440, 0/1440, 3/1440, 11/1440, 14/1440⟩,
   ⟨76/1440, 0/1440, 3/1440, 11/1440, 14/1440⟩]

/-- Column assignment of the five schedule offset columns. -/
def applySched (rows : List ChamberRow) (scheds : List SchedEntry) : List ChamberRow :=
  List.zipWith
    (fun r s =>
      { r with
        ch_start := s.ch_start, ch_o_b := s.ch_o_b, ch_cls := s.ch_cls,
        ch_o_a := s.ch_o_a, ch_end := s.ch_end })
    rows scheds

/-- Second stage: add the chamber sampling sequence (source: "add chamber
sequence" control statement, split on `doy < 119`). -/
def add_schedule (rows : List ChamberRow) (doy : ℚ) : List ChamberRow :=
  if doy < 119 then applySched rows sched_hourly
  else applySched rows sched_90min

/-- An (area, volume) pair for the area/volume column assignment. -/
structure AVEntry where
  av_A : ℚ
  av_V : ℚ
deriving Inhabited

/-- Column assignment of the `A_ch` and `V_ch` columns. -/
def applyAV (rows : List ChamberRow) (avs : List AVEntry) : List ChamberRow :=
  List.zipWith (fun r a => { r with A_ch := a.av_A, V_ch := a.av_V }) rows avs

/-- Model of `np.interp` on a two-point table, with the NumPy clamping at both ends. -/
def np_interp_2pt (x x0 x1 y0 y1 : ℚ) : ℚ :=
  if x ≤ x0 then y0
  else if x1 ≤ x then y1
  else y0 + (x - x0) * (y1 - y0) / (x1 - x0)

/-- Third stage: leaf and soil areas and chamber volumes (source: "add
leaf and soil areas, and chamber volumes" control statement; the source
branch `elif doy >= 119` is the exact complement of `doy < 119`).
Patches are written innermost-first: the innermost `applyAV` is the
column assignment, the surrounding `patchIf`s the subsequent `set_value`
overrides in source order. -/
def add_areas (rows0 : List ChamberRow) (doy : ℚ) : List ChamberRow :=
  if doy < 119 then
    patchIf (111.5 < doy) (fun rows => setV (setA rows 2 1e-4) 2 V_lc_XL)
      (patchIf (108 + 8/24 + 25/1440 ≤ doy ∧ doy < 110 + 13/24 + 40/1440)
        (fun rows => setV (setA rows 0 130e-4) 0 V_lc_XL)
        (applyAV rows0
          [⟨130e-4, V_lc_small⟩, ⟨170e-4, V_lc_small⟩, ⟨350e-4, V_lc_large⟩,
           ⟨317.8e-4, V_sc⟩, ⟨317.8e-4, V_sc⟩]))
  else
    patchIf (175 + 10/24 ≤ doy) (fun rows => setA rows 1 250e-4)
      (patchIf (166.5 ≤ doy)
        (fun rows =>
          setV (setA (setV (setA rows 0 300e-4) 0 V_lc_small) 2 190e-4) 2 V_lc_slide)
        (patchIf (154 + (14 + 8/60)/24 ≤ doy)
          (fun rows => setV (setA rows 0 190e-4) 0 V_lc_slide)
          (patchIf (145 + (10 + 11/60)/24 ≤ doy) (fun rows => setA rows 0 300e-4)
            (patchIf (135.5 ≤ doy)
              (fun rows => setA rows 2 (np_interp_2pt doy 135.5 145.5 1e-4 930e-4))
              (patchIf (131.5 ≤ doy) (fun rows => setV (setA rows 5 A_tsc) 5 V_tsc)
                (applyAV rows0
                  [⟨130e-4, V_lc_small⟩, ⟨170e-4, V_lc_small⟩, ⟨1e-4, V_lc_XL⟩,
                   ⟨A_lsc, V_lsc⟩, ⟨317.8e-4, V_sc⟩, ⟨317.8e-4, V_sc⟩]))))))

/-- Fourth stage: set `shoot_no` to zero for the "absolutely no chamber"
windows (source: final control statement of `chamber_lookup_table_func`);
patches written innermost-first in source order. -/
def shoot_zero_overrides (rows0 : List ChamberRow) (doy : ℚ) : List ChamberRow :=
  patchIf (158 + 9/24 < doy ∧ doy < 158 + 10/24) (fun rows => setShoot rows 0 0)
    (patchIf (154 + (13 + 40/60)/24 < doy ∧ doy < 154 + (14 + 8/60)/24)
      (fun rows => setShoot rows 0 0)
      (patchIf (111 + (8 + 20/60)/24 < doy ∧ doy < 111 + (12 + 20/60)/24)
        (fun rows => setShoot rows 2 0)
        (patchIf (111 + (8 + 20/60)/24 < doy ∧ doy < 111 + (13 + 15/60)/24)
          (fun rows => setShoot rows 1 0)
          (patchIf (110 + (13 + 40/60)/24 < doy ∧ doy < 111 + (13 + 15/60)/24)
            (fun rows => setShoot rows 0 0)
            rows0))))

/-- The function `chamber_lookup_table_func(doy)`: the chamber meta information
lookup table valid at fractional day-of-year `doy`. -/
def chamber_lookup_table_func (doy : ℚ) : List ChamberRow :=
  shoot_zero_overrides (add_areas (add_schedule (epoch_meta doy) doy) doy) doy

/-! ### Structural lemmas about the lookup table -/

/-- The duty-cycle offset invariant of one chamber row: closure start
strictly before open-after start, strictly before cycle end. -/
def offsets_ordered (r : ChamberRow) : Prop :=
  r.ch_cls < r.ch_o_a ∧ r.ch_o_a < r.ch_end

lemma mem_modifyRow_pres {P : ChamberRow → Prop} :
    ∀ (l : List ChamberRow) (i : ℕ) (f : ChamberRow → ChamberRow),
      (∀ r, P r → P (f r)) → (∀ r ∈ l, P r) → ∀ r ∈ modifyRow l i f, P r := by
  intro l
  induction l with
  | nil => intro i f _ _ r hr; simp [modifyRow] at hr
  | cons x xs ih =>
    intro i f hf h r hr
    cases i with
    | zero =>
      simp only [modifyRow, List.mem_cons] at hr
      rcases hr with h1 | h1
      · exact h1 ▸ hf x (h x (List.mem_cons_self x xs))
      · exact h r (List.mem_cons_of_mem x h1)
    | succ n =>
      simp only [modifyRow, List.mem_cons] at hr
      rcases hr with h1 | h1
      · exact h1 ▸ h x (List.mem_cons_self x xs)
      · exact ih n f hf (fun r hr => h r (List.mem_cons_of_mem x hr)) r h1

lemma setLabel_pres {P : ChamberRow → Prop} {l : List ChamberRow} {i : ℕ} {v : String}
    (hf : ∀ r, P r → P { r with ch_label := v }) (h : ∀ r ∈ l, P r) :
    ∀ r ∈ setLabel l i v, P r :=
  mem_modifyRow_pres l i _ hf h

lemma setShoot_pres {P : ChamberRow → Prop} {l : List ChamberRow} {i : ℕ} {v : ℤ}
    (hf : ∀ r, P r → P { r with shoot_no := v }) (h : ∀ r ∈ l, P r) :
    ∀ r ∈ setShoot l i v, P r :=
  mem_modifyRow_pres l i _ hf h

lemma setPAR_pres {P : ChamberRow → Prop} {l : List ChamberRow} {i : ℕ} {v : ℤ}
    (hf : ∀ r, P r → P { r with PAR_no := v }) (h : ∀ r ∈ l, P r) :
    ∀ r ∈ setPAR l i v, P r :=
  mem_modifyRow_pres l i _ hf h

lemma setA_pres {P : ChamberRow → Prop} {l : List ChamberRow} {i : ℕ} {v : ℚ}
    (hf : ∀ r, P r → P { r with A_ch := v }) (h : ∀ r ∈ l, P r) :
    ∀ r ∈ setA l i v, P r :=
  mem_modifyRow_pres l i _ hf h

lemma setV_pres {P : ChamberRow → Prop} {l : List ChamberRow} {i : ℕ} {v : ℚ}
    (hf : ∀ r, P r → P { r with V_ch := v }) (h : ∀ r ∈ l, P r) :
    ∀ r ∈ setV l i v, P r :=
  mem_modifyRow_pres l i _ hf h

lemma applySched_offs :
    ∀ (rows : List ChamberRow) (scheds : List SchedEntry),
      (∀ s ∈ scheds, s.ch_cls < s.ch_o_a ∧ s.ch_o_a < s.ch_end) →
      ∀ r ∈ applySched rows scheds, offsets_ordered r := by
  intro rows
  induction rows with
  | nil => intro scheds _ r hr; simp [applySched] at hr
  | cons x xs ih =>
    intro scheds hs r hr
    cases scheds with
    | nil => simp [applySched] at hr
    | cons s ss =>
      simp only [applySched, List.zipWith_cons_cons, List.mem_cons] at hr
      rcases hr with h1 | h1
      · subst h1; exact hs s (List.mem_cons_self s ss)
      · exact ih ss (fun t ht => hs t (List.mem_cons_of_mem s ht)) r h1

lemma applyAV_offs :
    ∀ (rows : List ChamberRow) (avs : List AVEntry),
      (∀ r ∈ rows, offsets_ordered r) → ∀ r ∈ applyAV rows avs, offsets_ordered r := by
  intro rows
  induction rows with
  | nil => intro avs _ r hr; simp [applyAV] at hr
  | cons x xs ih =>
    intro avs h r hr
    cases avs with
    | nil => simp [applyAV] at hr
    | cons a as =>
      simp only [applyAV, List.zipWith_cons_cons, List.mem_cons] at hr
      rcases hr with h1 | h1
      · subst h1; exact h x (List.mem_cons_self x xs)
      · exact ih as (fun t ht => h t (List.mem_cons_of_mem x ht)) r h1

lemma add_schedule_offs (rows : List ChamberRow) (doy : ℚ) :
    ∀ r ∈ add_schedule rows doy, offsets_ordered r := by
  unfold add_schedule
  split_ifs
  · apply applySched_offs
    intro s hs
    simp only [sched_hourly, List.mem_cons, List.not_mem_nil, or_false] at hs
    rcases hs with h | h | h | h | h <;> subst h <;> norm_num
  · apply applySched_offs
    intro s hs
    simp only [sched_90min, List.mem_cons, List.not_mem_nil, or_false] at hs
    rcases hs with h | h | h | h | h | h <;> subst h <;> norm_num

lemma setLabel_offs (l : List ChamberRow) (i : ℕ) (v : String)
    (h : ∀ r ∈ l, offsets_ordered r) : ∀ r ∈ setLabel l i v, offsets_ordered r :=
  setLabel_pres (fun _ hr => hr) h

lemma setShoot_offs (l : List ChamberRow) (i : ℕ) (v : ℤ)
    (h : ∀ r ∈ l, offsets_ordered r) : ∀ r ∈ setShoot l i v, offsets_ordered r :=
  setShoot_pres (fun _ hr => hr) h

lemma setPAR_offs (l : List ChamberRow) (i : ℕ) (v : ℤ)
    (h : ∀ r ∈ l, offsets_ordered r) : ∀ r ∈ setPAR l i v, offsets_ordered r :=
  setPAR_pres (fun _ hr => hr) h

lemma setA_offs (l : List ChamberRow) (i : ℕ) (v : ℚ)
    (h : ∀ r ∈ l, offsets_ordered r) : ∀ r ∈ setA l i v, offsets_ordered r :=
  setA_pres (fun _ hr => hr) h

lemma setV_offs (l : List ChamberRow) (i : ℕ) (v : ℚ)
    (h : ∀ r ∈ l, offsets_ordered r) : ∀ r ∈ setV l i v, offsets_ordered r :=
  setV_pres (fun _ hr => hr) h

lemma patchIf_offs (c : Prop) [Decidable c] (f : List ChamberRow → List ChamberRow)
    (rows : List ChamberRow)
    (hf : ∀ l, (∀ r ∈ l, offsets_ordered r) → ∀ r ∈ f l, offsets_ordered r)
    (h : ∀ r ∈ rows, offsets_ordered r) :
    ∀ r ∈ patchIf c f rows, offsets_ordered r := by
  unfold patchIf
  split_ifs with hc
  · exact hf rows h
  · exact h

lemma add_areas_offs (rows : List ChamberRow) (doy : ℚ)
    (h : ∀ r ∈ rows, offsets_ordered r) :
    ∀ r ∈ add_areas rows doy, offsets_ordered r := by
  unfold add_areas
  split_ifs <;>
    (repeat
      first
      | exact applyAV_offs _ _ h
      | assumption
      | apply patchIf_offs
      | apply setA_offs
      | apply setV_offs
      | intro l hl)

lemma shoot_zero_offs (rows : List ChamberRow) (doy : ℚ)
    (h : ∀ r ∈ rows, offsets_ordered r) :
    ∀ r ∈ shoot_zero_overrides rows doy, offsets_ordered r := by
  unfold shoot_zero_overrides
  repeat
    first
    | exact h
    | assumption
    | apply patchIf_offs
    | apply setShoot_offs
    | intro l hl

lemma length_modifyRow :
    ∀ (l : List ChamberRow) (i : ℕ) (f : ChamberRow → ChamberRow),
      (modifyRow l i f).length = l.length := by
  intro l
  induction l with
  | nil => intro i f; simp [modifyRow]
  | cons x xs ih => intro i f; cases i <;> simp [modifyRow, ih]

lemma length_setLabel (l : List ChamberRow) (i : ℕ) (v : String) :
    (setLabel l i v).length = l.length := by
  simp [setLabel, length_modifyRow]

lemma length_setShoot (l : List ChamberRow) (i : ℕ) (v : ℤ) :
    (setShoot l i v).length = l.length := by
  simp [setShoot, length_modifyRow]

lemma length_setPAR (l : List ChamberRow) (i : ℕ) (v : ℤ) :
    (setPAR l i v).length = l.length := by
  simp [setPAR, length_modifyRow]

lemma length_setA (l : List ChamberRow) (i : ℕ) (v : ℚ) :
    (setA l i v).length = l.length := by
  simp [setA, length_modifyRow]

lemma length_setV (l : List ChamberRow) (i : ℕ) (v : ℚ) :
    (setV l i v).length = l.length := by
  simp [setV, length_modifyRow]

lemma length_patchIf (c : Prop) [Decidable c] (f : List ChamberRow → List ChamberRow)
    (rows : List ChamberRow) (hf : ∀ l, (f l).length = l.length) :
    (patchIf c f rows).length = rows.length := by
  unfold patchIf
  split_ifs <;> simp [hf]

lemma length_blank_patch (l : List ChamberRow) (c : Prop) [Decidable c] :
    (if c then setShoot (setShoot l 2 17) 0 19
     else setShoot (setShoot l 2 17) 1 18).length = l.length := by
  split_ifs <;> simp [length_setShoot]

lemma length_epoch_meta (doy : ℚ) :
    (epoch_meta doy).length = if doy < 119 then 5 else 6 := by
  unfold epoch_meta
  by_cases h1 : doy < 103 + 11/24
  · rw [if_pos h1, if_pos (show doy < 119 by linarith)]
    rfl
  rw [if_neg h1]
  by_cases h2 : 103 + 11/24 ≤ doy ∧ doy < 111.5
  · rw [if_pos h2, if_pos (show doy < 119 by linarith [h2.2])]
    simp [length_patchIf, length_setShoot, length_setLabel]
  rw [if_neg h2]
  by_cases h3 : 111.5 ≤ doy ∧ doy < 119
  · rw [if_pos h3, if_pos h3.2]
    simp [length_patchIf, length_setShoot]
  rw [if_neg h3]
  have h119 : ¬ doy < 119 := by
    intro hlt
    rcases lt_or_le doy 111.5 with hc | hc
    · rcases lt_or_le doy (103 + 11/24) with hd | hd
      · exact h1 hd
      · exact h2 ⟨hd, hc⟩
    · exact h3 ⟨hc, hlt⟩
  rw [if_neg h119]
  by_cases h4 : 119 ≤ doy ∧ doy < 140 + 11.5/24
  · rw [if_pos h4]; rfl
  rw [if_neg h4]
  by_cases h5 : 140 + 11.5/24 ≤ doy ∧ doy < 145 + (10 + 11/60)/24
  · rw [if_pos h5]; rfl
  rw [if_neg h5]
  by_cases h6 : 145 + (10 + 11/60)/24 ≤ doy ∧ doy < 154 + (14 + 8/60)/24
  · rw [if_pos h6]; rfl
  rw [if_neg h6]
  by_cases h7 : 154 + (14 + 8/60)/24 ≤ doy ∧ doy < 166.5
  · rw [if_pos h7]
    simp [length_patchIf, length_setShoot]
  rw [if_neg h7]
  simp [length_patchIf, length_setShoot, length_setPAR, length_blank_patch]

lemma length_applySched (rows : List ChamberRow) (scheds : List SchedEntry) :
    (applySched rows scheds).length = min rows.length scheds.length := by
  simp [applySched]

lemma length_applyAV (rows : List ChamberRow) (avs : List AVEntry) :
    (applyAV rows avs).length = min rows.length avs.length := by
  simp [applyAV]

lemma length_add_schedule (rows : List ChamberRow) (doy : ℚ) :
    (add_schedule rows doy).length =
      if doy < 119 then min rows.length 5 else min rows.length 6 := by
  unfold add_schedule
  split_ifs <;> simp [length_applySched, sched_hourly, sched_90min]

lemma length_add_areas (rows : List ChamberRow) (doy : ℚ) :
    (add_areas rows doy).length =
      if doy < 119 then min rows.length 5 else min rows.length 6 := by
  unfold add_areas
  split_ifs <;>
    simp [length_patchIf, length_setA, length_setV, length_applyAV]

lemma length_shoot_zero (rows : List ChamberRow) (doy : ℚ) :
    (shoot_zero_overrides rows doy).length = rows.length := by
  unfold shoot_zero_overrides
  simp [length_patchIf, length_setShoot]

lemma length_chamber_lookup (doy : ℚ) :
    (chamber_lookup_table_func doy).length = if doy < 119 then 5 else 6 := by
  unfold chamber_lookup_table_func
  rw [length_shoot_zero, length_add_areas, length_add_schedule, length_epoch_meta]
  by_cases h : doy < 119 <;> simp [h]

/-- C1: for every timestamp within the documented campaign span, the
schedule resolver `chamber_lookup_table_func` returns exactly one chamber
configuration table (it is a total function, and the table is nonempty),
and every chamber row of that table satisfies
`ch_cls < ch_o_a` and `ch_o_a < ch_end` (closure start strictly before
open-after start, strictly before cycle end). -/
theorem C1_schedule_resolver_offsets_ordered (doy : ℚ)
    (hlo : 97 ≤ doy) (hhi : doy ≤ 366) :
    chamber_lookup_table_func doy ≠ [] ∧
      ∀ r ∈ chamber_lookup_table_func doy,
        r.ch_cls < r.ch_o_a ∧ r.ch_o_a < r.ch_end := by
  constructor
  · have hl := length_chamber_lookup doy
    intro hnil
    rw [hnil] at hl
    by_cases h : doy < 119 <;> simp [h] at hl
  · intro r hr
    exact shoot_zero_offs _ doy
      (add_areas_offs _ doy (add_schedule_offs (epoch_meta doy) doy)) r hr

/-- Witness for C1: the campaign-span hypotheses are satisfiable, e.g. at
`doy = 120`, where the invariant holds for every row of the resolved table. -/
theorem C1_schedule_resolver_offsets_ordered_witness :
    chamber_lookup_table_func 120 ≠ [] ∧
      ∀ r ∈ chamber_lookup_table_func 120,
        r.ch_cls < r.ch_o_a ∧ r.ch_o_a < r.ch_end :=
  C1_schedule_resolver_offsets_ordered 120 (by norm_num) (by norm_num)

/-! ### Time lag: nominal value, optimization post-processing
(source: "set time lags and safety margins" and "time lag optimization"
blocks of the daily loop) -/

/-- Configuration flag `flag_timelag_optmz = True`. -/
def flag_timelag_optmz : Bool := true

/-- Sampling tube inner diameter (m): 0.17 inch. -/
def tube_inner_diameter : ℚ := 0.17 * 25.4 * 1e-3

/-- Tubing length (m): 60 m, plus 2.5 m for leaf chamber 3
(`60. + (ch_no == 3) * 2.5`). -/
def tube_length (ch_no : ℤ) : ℚ :=
  60 + (if ch_no = 3 then 1 else 0) * 2.5

/-- Margin `dt_lmargin` (fraction of a day): left safety margin. -/
def dt_lmargin_day (ch_no : ℤ) : ℚ :=
  if ch_no ≤ 3 then 15/86400 else 0.5/1440

/-- Margin `dt_rmargin` (fraction of a day): right safety margin. -/
def dt_rmargin_day (ch_no : ℤ) : ℚ :=
  if ch_no ≤ 3 then 15/86400 else 0

/-- Nominal time lag in seconds (`time_lag_nominal[loop_num]`,
i.e. `time_lag_in_day * 86400`): computed from tube geometry and flow
rate for leaf chambers (`ch_no <= 3`), zero for soil chambers. -/
def time_lag_nominal_sec (ch_no : ℤ) (f_ch_lpm : ℚ) : ℚ :=
  if ch_no ≤ 3 then
    tube_inner_diameter ^ 2 * np_pi / 4 * tube_length ch_no * 1e3 / f_ch_lpm / 1440 * 86400
  else 0 / 1440 * 86400

/-- Upper bound of the time lag (`time_lag_uplim = 180.`). -/
def time_lag_uplim : ℚ := 180

/-- Lower bound of the time lag: 90 s, reduced to 60 s after the leaf
chamber flow rates were adjusted (`if ch_time > 196.25`). -/
def time_lag_lolim (ch_time : ℚ) : ℚ :=
  if ch_time > 196.25 then 60 else 90

/-- Result of `scipy.optimize.minimize` on the lag objective:
`x` is the result of the minimizer (`none` models a NaN result) and `status`
its native status code. -/
structure OptOutcome where
  x : Option ℚ
  status : ℤ

/-- The reported per-visit time lag `(t_lag_co2, status_tlag)`.
For leaf chambers with optimization enabled, the minimizer outcome `opt`
is post-processed: a NaN or out-of-bounds result is replaced by
`nanmax((nanmin((nominal, uplim)), lolim))` with status 255, otherwise
the optimized value and the native status are kept.  For soil chambers
the optimizer is never consulted, the nominal lag is reported, and the
status keeps its initialization value `-1`. -/
def visit_time_lag (ch_no : ℤ) (ch_time nominal : ℚ) (opt : OptOutcome) : ℚ × ℤ :=
  if flag_timelag_optmz ∧ ch_no ≤ 3 then
    match opt.x with
    | none => (max (min nominal time_lag_uplim) (time_lag_lolim ch_time), 255)
    | some x =>
      if x > time_lag_uplim ∨ x < time_lag_lolim ch_time then
        (max (min nominal time_lag_uplim) (time_lag_lolim ch_time), 255)
      else (x, opt.status)
  else (nominal, -1)

/-- C2: for every leaf-chamber visit on which lag optimization runs, if
the result of the optimizer is non-finite or lies outside
`[lowerBound, upperBound]` — `lowerBound` being 90 s, or 60 s for visits
after campaign day-of-year 196.25, and `upperBound` 180 s — the reported
lag is the nominal lag clamped into `[lowerBound, upperBound]` and the
status code is 255; otherwise the reported lag is the optimized result
and the status code is the native status code of the minimizer. -/
theorem C2_timelag_fallback_and_bounds (ch_no : ℤ) (ch_time nominal : ℚ)
    (opt : OptOutcome) (hleaf : ch_no ≤ 3) :
    ((opt.x = none ∨
        ∃ x, opt.x = some x ∧
          (x > 180 ∨ x < (if ch_time > 196.25 then (60 : ℚ) else 90))) →
      visit_time_lag ch_no ch_time nominal opt =
        (max (min nominal 180) (if ch_time > 196.25 then (60 : ℚ) else 90), 255)) ∧
    (∀ x, opt.x = some x →
      (if ch_time > 196.25 then (60 : ℚ) else 90) ≤ x → x ≤ 180 →
      visit_time_lag ch_no ch_time nominal opt = (x, opt.status)) := by
  constructor
  · rintro (hnone | ⟨x, hx, hout⟩)
    · simp [visit_time_lag, flag_timelag_optmz, hleaf, hnone,
        time_lag_uplim, time_lag_lolim]
    · simp only [visit_time_lag, flag_timelag_optmz, hleaf, hx,
        time_lag_uplim, time_lag_lolim]
      rw [if_pos (by trivial), if_pos hout]
  · intro x hx hge hle
    simp only [visit_time_lag, flag_timelag_optmz, hleaf, hx,
      time_lag_uplim, time_lag_lolim]
    rw [if_pos (by trivial), if_neg (by push_neg; exact ⟨hle, hge⟩)]

/-- Witness for C2: a leaf chamber (`ch_no = 1`) before day 196.25 with
an out-of-range optimizer result 200 s falls back to the clamped nominal
lag 130 s with status 255; an in-range result 95 s is kept with the
native status code 7. -/
theorem C2_timelag_fallback_and_bounds_witness :
    visit_time_lag 1 100 130 ⟨some 200, 7⟩ = (130, 255) ∧
    visit_time_lag 1 100 130 ⟨some 95, 7⟩ = (95, 7) := by
  constructor
  · have h := (C2_timelag_fallback_and_bounds 1 100 130 ⟨some 200, 7⟩
      (by norm_num)).1 (Or.inr ⟨200, rfl, Or.inl (by norm_num)⟩)
    rw [h]
    norm_num
  · have h := (C2_timelag_fallback_and_bounds 1 100 130 ⟨some 95, 7⟩
      (by norm_num)).2 95 rfl (by norm_num) (by norm_num)
    rw [h]

/-- C10: for every soil-chamber visit (`ch_no > 3`), the optimizer is
never invoked (the reported values do not depend on the minimizer outcome
`opt`): the nominal lag is exactly 0 s, the reported optimized lag equals
that nominal 0 s, and the status code is the initialization sentinel −1,
distinct from the success code 0 and the fallback code 255. -/
theorem C10_soil_chamber_zero_lag (ch_no : ℤ) (ch_time f_ch_lpm : ℚ)
    (opt : OptOutcome) (hsoil : 3 < ch_no) :
    time_lag_nominal_sec ch_no f_ch_lpm = 0 ∧
    visit_time_lag ch_no ch_time (time_lag_nominal_sec ch_no f_ch_lpm) opt = (0, -1) ∧
    ((-1 : ℤ) ≠ 0 ∧ (-1 : ℤ) ≠ 255) := by
  have hn : ¬ ch_no ≤ 3 := not_le.mpr hsoil
  refine ⟨?_, ?_, by norm_num, by norm_num⟩
  · simp [time_lag_nominal_sec, hn]
  · simp [visit_time_lag, time_lag_nominal_sec, hn]

/-- Witness for C10: the soil chamber `ch_no = 4` (with any flow rate and
any minimizer outcome, here 1.7 lpm and a successful outcome 120 s). -/
theorem C10_soil_chamber_zero_lag_witness :
    time_lag_nominal_sec 4 1.7 = 0 ∧
    visit_time_lag 4 200 (time_lag_nominal_sec 4 1.7) ⟨some 120, 0⟩ = (0, -1) ∧
    ((-1 : ℤ) ≠ 0 ∧ (-1 : ℤ) ≠ 255) :=
  C10_soil_chamber_zero_lag 4 200 1.7 ⟨some 120, 0⟩ (by norm_num)

/-! ### `scipy.stats.linregress` and the time-lag objective
`func_conc_resid` -/

/-- Core of ordinary least squares on finite points: returns
`(slope, intercept, ssxx, sse)`; undefined on an empty sample or a
constant regressor (where scipy produces NaN or divides by zero). -/
def lr_core (pts : List (ℚ × ℚ)) : Option (ℚ × ℚ × ℚ × ℚ) :=
  let n : ℚ := (pts.length : ℚ)
  if pts.length = 0 then none
  else
    let mx := (pts.map Prod.fst).sum / n
    let my := (pts.map Prod.snd).sum / n
    let ssxx := (pts.map (fun p => (p.1 - mx) ^ 2)).sum
    let ssxy := (pts.map (fun p => (p.1 - mx) * (p.2 - my))).sum
    if ssxx = 0 then none
    else
      let slope := ssxy / ssxx
      let intercept := my - slope * mx
      let sse := (pts.map (fun p => (p.2 - (slope * p.1 + intercept)) ^ 2)).sum
      some (slope, intercept, ssxx, sse)

/-- Model of `stats.linregress(x, y).slope, .intercept`: NaN y-values propagate
through the sample means, making every output NaN. -/
def lr_slope_intercept (xs : List ℚ) (ys : List (Option ℚ)) : Option ℚ × Option ℚ :=
  if ys.any (fun y => y.isNone) then (none, none)
  else
    match lr_core (xs.zip (ys.filterMap id)) with
    | none => (none, none)
    | some (s, i, _, _) => (some s, some i)

/-- Model of `stats.linregress(x, y).stderr`, the standard error of the slope:
`sqrt(sse / (n − 2) / ssxx)`; NaN when the inputs contain NaN and
undefined for `n = 2` (zero degrees of freedom). -/
def lr_sd_slope (sqrtf : ℚ → ℚ) (xs : List ℚ) (ys : List (Option ℚ)) : Option ℚ :=
  if ys.any (fun y => y.isNone) then none
  else
    match lr_core (xs.zip (ys.filterMap id)) with
    | none => none
    | some (_, _, ssxx, sse) =>
      let n : ℚ := ((xs.zip (ys.filterMap id)).length : ℚ)
      if n - 2 = 0 then none
      else some (sqrtf (sse / (n - 2) / ssxx))

/-- The `np.where((time >= lo) & (time < hi) & isfinite(time) &
isfinite(conc))` index selection of `func_conc_resid`, as the selected
sublist of `(time, conc)` pairs (times in the data are finite). -/
def window_select (lo hi : ℚ) (time_conc : List (ℚ × Option ℚ)) :
    List (ℚ × Option ℚ) :=
  time_conc.filter (fun p => decide (lo ≤ p.1) && decide (p.1 < hi) && p.2.isSome)

/-- The objective `func_conc_resid(t_lag, time, conc, t_turnover, ...)`: the time-lag
optimization objective.  `expf` is the `np.exp` oracle; `time_conc` the
paired time (seconds since line switch) and concentration series; the
remaining arguments mirror the keyword arguments of the source.  Returns
NaN (`none`) when no finite observation falls in the lag-shifted closure
window, otherwise the mean squared residual of the baseline-plus-
exponential fit (with the two historical scoring modes selected by
`closure_period_only`). -/
def func_conc_resid (expf : ℚ → ℚ) (t_lag : ℚ)
    (time_conc : List (ℚ × Option ℚ)) (t_turnover : ℚ)
    (dt_open_before dt_close dt_open_after dt_left_margin dt_right_margin : ℚ)
    (closure_period_only : Bool) : Option ℚ :=
  let chb := window_select (t_lag + dt_left_margin)
    (t_lag + dt_open_before - dt_right_margin) time_conc
  let chc := window_select (t_lag + dt_open_before + dt_left_margin)
    (t_lag + dt_open_before + dt_close - dt_right_margin) time_conc
  let cha := window_select (t_lag + dt_open_before + dt_close + dt_left_margin)
    (t_lag + dt_open_before + dt_close + dt_open_after - dt_right_margin) time_conc
  let m_chb := medianQ (chb.filterMap Prod.snd)
  let m_cha := medianQ (cha.filterMap Prod.snd)
  let t_mid_chb := medianQ (chb.map Prod.fst)
  let t_mid_cha := medianQ (cha.map Prod.fst)
  let k_bl := odiv (osub m_cha m_chb) (osub t_mid_cha t_mid_chb)
  let b_bl := osub m_chb (omul k_bl t_mid_chb)
  let conc_bl := fun t => oadd (omul k_bl (some t)) b_bl
  let x_obs := chc.map (fun p => expf (-(p.1 - t_lag - dt_open_before) / t_turnover))
  let y_obs := chc.map (fun p => osub p.2 (conc_bl p.1))
  if x_obs.length = 0 then none
  else
    let si := lr_slope_intercept x_obs y_obs
    let y_fitted := x_obs.map (fun x => oadd (omul si.1 (some x)) si.2)
    if closure_period_only then
      odiv (some (nansum ((y_fitted.zip y_obs).map
          (fun p => omul (osub p.1 p.2) (osub p.1 p.2)))))
        (some ((chc.length : ℚ) - 2))
    else
      let conc_fitted := fun (t : ℚ) =>
        oadd (oadd (omul si.1 (some (expf (-(t - t_lag - dt_open_before) / t_turnover))))
          si.2) (conc_bl t)
      let conc_fitted_m := fun (t : ℚ) =>
        if t < t_lag + dt_open_before ∧ t > t_lag + dt_open_before + dt_close then
          conc_bl t
        else conc_fitted t
      let resid_trunc :=
        (time_conc.filter (fun p => decide (p.1 ≤ t_lag + dt_open_before + dt_close))).map
          (fun p => osub p.2 (conc_fitted_m p.1))
      odiv (some (nansum (resid_trunc.map (fun o => omul o o))))
        (some (((resid_trunc.filterMap id).length : ℚ) - 3))

/-- C3: for every trial lag value, if zero finite concentration
observations fall within the lag-shifted closure window, the objective
`func_conc_resid` returns NaN (undefined, modelled `none`) — in
particular not zero — for every exponential oracle, every degrees-of-
freedom scoring mode and all window parameters. -/
theorem C3_objective_nan_on_empty_closure (expf : ℚ → ℚ)
    (t_lag t_turnover : ℚ) (time_conc : List (ℚ × Option ℚ))
    (dt_ob dt_cl dt_oa dt_lm dt_rm : ℚ) (cpo : Bool)
    (hempty :
      window_select (t_lag + dt_ob + dt_lm) (t_lag + dt_ob + dt_cl - dt_rm)
        time_conc = []) :
    func_conc_resid expf t_lag time_conc t_turnover dt_ob dt_cl dt_oa dt_lm dt_rm
      cpo = none := by
  simp [func_conc_resid, hempty]

/-- Witness for C3: a series with a single observation in the pre-closure
window and none in the closure window (default window parameters of the
source call), on which the objective is NaN. -/
theorem C3_objective_nan_on_empty_closure_witness :
    func_conc_resid (fun _ => 0) 0 [(10, some 1)] 1 60 240 180 0 0 false = none :=
  C3_objective_nan_on_empty_closure (fun _ => 0) 0 1 [(10, some 1)]
    60 240 180 0 0 false (by norm_num [window_select, List.filter])

/-! ### Daily loop structure: cycle counts and the per-day QCL file check
(source: daily loop preamble, lines around `n_smpl_per_day`) -/

/-- Cycle length `smpl_seq_len`: length of one full sampling sequence in days —
1 hour up to and including day 118, 1.5 hours afterwards
(`if doy <= 118` / `elif doy > 118`, the exact complement). -/
def smpl_seq_len (doy : ℚ) : ℚ :=
  if doy ≤ 118 then 1/24 else 1.5/24

/-- Count `n_loop_per_day = np.int(1. / smpl_seq_len)`: number of cycles per
day (truncation of a positive value, i.e. the floor). -/
def n_loop_per_day (doy : ℚ) : ℕ :=
  (Int.floor (1 / smpl_seq_len doy)).toNat

/-- Count `n_ch`: number of chambers, the row count of the lookup table
resolved at `doy + 0.5`. -/
def n_ch (doy : ℚ) : ℕ :=
  (chamber_lookup_table_func (doy + 0.5)).length

/-- Count `n_smpl_per_day`: number of chamber visits processed in one day;
`n_ch * n_loop_per_day`, overridden on day 109 (data corrupt after
18:00) to `n_ch * 18` and on day 118 (only data before 17:00) to
`n_ch * 17`. -/
def n_smpl_per_day (doy : ℚ) : ℕ :=
  let n0 := n_ch doy * n_loop_per_day doy
  let n1 := if doy = 109 then n_ch doy * 18 else n0
  if doy = 118 then n_ch doy * 17 else n1

/-- Sequence `ch_no = np.tile(...)` of visited chamber numbers, with
the day-109 and day-118 truncations `ch_no[0:n_smpl_per_day]`. -/
def ch_no_seq (doy : ℚ) : List ℤ :=
  let base := (List.replicate (n_loop_per_day doy)
    ((chamber_lookup_table_func (doy + 0.5)).map (fun r => r.ch_no))).flatten
  let b1 := if doy = 109 then base.take (n_ch doy * 18) else base
  if doy = 118 then b1.take (n_ch doy * 17) else b1

/-- C8: for every processing day, the number of chamber visits processed
equals the number of chambers times N, with N = 24 for days up to and
including 118 (1-hour cycles), N = 16 afterwards (1.5-hour cycles),
except N = 18 on day 109 and N = 17 on day 118; and the number of
chambers is 5 up to day 118 and 6 afterwards. -/
theorem C8_visits_per_day (d : ℤ) (h97 : 97 ≤ d) :
    n_smpl_per_day (d : ℚ) =
      n_ch (d : ℚ) *
        (if d = 109 then 18 else if d = 118 then 17
         else if d ≤ 118 then 24 else 16) ∧
    n_ch (d : ℚ) = (if d ≤ 118 then 5 else 6) := by
  have hch : n_ch (d : ℚ) = (if d ≤ 118 then 5 else 6) := by
    unfold n_ch
    rw [length_chamber_lookup]
    by_cases hd : d ≤ 118
    · rw [if_pos hd, if_pos]
      have : (d : ℚ) ≤ 118 := by exact_mod_cast hd
      norm_num
      linarith
    · rw [if_neg hd, if_neg]
      push_neg at hd
      have : (119 : ℚ) ≤ (d : ℚ) := by exact_mod_cast hd
      norm_num
      linarith
  have hloop : n_loop_per_day (d : ℚ) = if d ≤ 118 then 24 else 16 := by
    unfold n_loop_per_day smpl_seq_len
    by_cases hd : d ≤ 118
    · rw [if_pos (show (d : ℚ) ≤ 118 by exact_mod_cast hd), if_pos hd]
      norm_num
      rfl
    · rw [if_neg (show ¬ (d : ℚ) ≤ 118 by exact_mod_cast hd), if_neg hd]
      norm_num
      rfl
  refine ⟨?_, hch⟩
  rcases eq_or_ne d 109 with h109 | h109
  · subst h109
    norm_num [n_smpl_per_day]
  rcases eq_or_ne d 118 with h118 | h118
  · subst h118
    norm_num [n_smpl_per_day]
  · have hq109 : ((d : ℚ) ≠ 109) := by exact_mod_cast h109
    have hq118 : ((d : ℚ) ≠ 118) := by exact_mod_cast h118
    simp only [n_smpl_per_day]
    rw [if_neg hq118, if_neg hq109, hloop, if_neg h109, if_neg h118]

/-- Witness for C8: day 109 has 5 chambers and 5·18 = 90 visits. -/
theorem C8_visits_per_day_witness :
    n_smpl_per_day ((109 : ℤ) : ℚ) =
      n_ch ((109 : ℤ) : ℚ) *
        (if (109 : ℤ) = 109 then 18 else if (109 : ℤ) = 118 then 17
         else if (109 : ℤ) ≤ 118 then 24 else 16) ∧
    n_ch ((109 : ℤ) : ℚ) = (if (109 : ℤ) ≤ 118 then 5 else 6) :=
  C8_visits_per_day 109 (by norm_num)

/-- One day of the campaign loop: if the QCL raw-concentration
file list is empty, the source prints a message and `continue`s — no
output is produced for that day; otherwise the day is processed and its
record table written (one row per visit; rows identified here by their
chamber number sequence). -/
def process_day (qcl_files : List String) (doy : ℚ) : Option (List ℤ) :=
  if qcl_files.length = 0 then none else some (ch_no_seq doy)

/-- The campaign driver: iterate `process_day` over the days, keeping
the outputs of processed days in order. -/
def campaign (days : List (List String × ℚ)) : List (ℚ × List ℤ) :=
  days.filterMap (fun p => (process_day p.1 p.2).map (fun recs => (p.2, recs)))

/-- C9: a day whose required QCL file is absent is skipped entirely: it
produces no output record for any visit (not even a partial table), and
the campaign loop continues with the remaining days unchanged. -/
theorem C9_missing_qcl_file_skips_day (d : ℚ)
    (pre post : List (List String × ℚ)) (files : List String)
    (hmiss : files = []) :
    process_day files d = none ∧
    campaign (pre ++ (files, d) :: post) = campaign pre ++ campaign post := by
  subst hmiss
  constructor
  · simp [process_day]
  · simp [campaign, List.filterMap_append, process_day]

/-- Witness for C9: a three-day campaign whose middle day (98) has no
QCL file produces exactly the outputs of days 97 and 99. -/
theorem C9_missing_qcl_file_skips_day_witness :
    process_day [] 98 = none ∧
    campaign ([(["a.str"], 97)] ++ ([], 98) :: [(["b.str"], 99)]) =
      campaign [(["a.str"], 97)] ++ campaign [(["b.str"], 99)] :=
  C9_missing_qcl_file_skips_day 98 [(["a.str"], 97)] [(["b.str"], 99)] [] rfl

/-! ### Per-visit flux calculation (daily loop body)

One row of the QCL concentration stream, with the timestamp already
converted to fractional day of year (`qcl_doy`).  The unused file
columns (`co2_2`, `cos_2`, `co2_3`) are omitted; `none` models NaN from
invalid parses. -/
structure QclRow where
  time : Option ℚ
  cos : Option ℚ
  co : Option ℚ
  co2 : Option ℚ
  h2o : Option ℚ
deriving Inhabited, DecidableEq

/-- Predicate of `np.where((qcl_doy > lo) & (qcl_doy < hi))`: a NaN timestamp fails
both comparisons. -/
def time_in_window (lo hi : ℚ) (r : QclRow) : Bool :=
  match r.time with
  | none => false
  | some t => decide (lo < t) && decide (t < hi)

/-- The rows selected by a `np.where` time-window index array. -/
def select_window (rows : List QclRow) (lo hi : ℚ) : List QclRow :=
  rows.filter (time_in_window lo hi)

/-- Index set `ind_chc`: closure-period selection
`(qcl_doy > t_cls + time_lag_in_day + dt_lmargin) &
 (qcl_doy < t_o_a + time_lag_in_day - dt_rmargin)`. -/
def closure_window (rows : List QclRow) (t_cls t_o_a lag lm rm : ℚ) : List QclRow :=
  select_window rows (t_cls + lag + lm) (t_o_a + lag - rm)

/-- Flag `flag_calc_flux`: 1 when the closure period holds at least
`2. * 60.` samples (two minutes of 1 Hz data), else 0. -/
def flag_calc_flux (n_ind_chc : ℕ) : ℕ :=
  if (n_ind_chc : ℚ) ≥ 2 * 60 then 1 else 0

/-- The list `species_list = [cos, co, co2, h2o]`: the concentration
column for species index `spc_id`. -/
def spc_conc : Fin 4 → QclRow → Option ℚ
  | 0 => fun r => r.cos
  | 1 => fun r => r.co
  | 2 => fun r => r.co2
  | 3 => fun r => r.h2o

/-- Factors `conc_factor = [1e3, 1, 1e-3, 1e-6]`: multiplication factors giving
pptv, ppbv, ppmv, mmol mol⁻¹. -/
def conc_factor : Fin 4 → ℚ
  | 0 => 1e3
  | 1 => 1
  | 2 => 1e-3
  | 3 => 1e-6

/-- Baseline slope and intercept for one species (daily loop, "calculate
baseline slopes and intercepts").  Arguments are the median
pre-closure time/concentration, median post-closure time/concentration
(in seconds since `t_start` and output units), and the last closure
sample time `chc_time[-1]`.  If the post-closure median concentration is
NaN it is replaced by the pre-closure median and the post time by
`chc_time[-1]`; the intercept uses the pre-override slope; for water
vapor (`spc_id == 3`) the slope is forced to zero after the intercept is
computed. -/
def baseline_calc (spc_id : Fin 4) (m_chb_t m_cha_t m_chb_c m_cha_c : Option ℚ)
    (chc_last_t : ℚ) : Option ℚ × Option ℚ :=
  let sub :=
    match m_cha_c with
    | none => (m_chb_c, some chc_last_t)
    | some v => (some v, m_cha_t)
  let k_bl := odiv (osub sub.1 m_chb_c) (osub sub.2 m_chb_t)
  let b_bl := osub m_chb_c (omul k_bl m_chb_t)
  let k_fin := if spc_id = 3 then some 0 else k_bl
  (k_fin, b_bl)

/-- Series `y_fit = (chc_conc - conc_bl) * f_ch / A_ch`, elementwise over the
closure samples paired with the fitted baseline. -/
def y_fit_list (conc_of : QclRow → Option ℚ) (factor : ℚ) (chc : List QclRow)
    (conc_bl : List (Option ℚ)) (fa : ℚ) : List (Option ℚ) :=
  (chc.zip conc_bl).map
    (fun p => omul (osub (omul (conc_of p.1) (some factor)) p.2) (some fa))

/-- Flux fit of one species (daily loop, per-`spc_id` body): compute the
median-based baseline, subtract it, scale by `f_ch / A_ch`, regress
against the exponential decay kernel, and return
`(flux, sd_flux) = (-slope, |sd_slope|)`. -/
def species_fit (expf sqrtf : ℚ → ℚ) (spc_id : Fin 4)
    (chb chc cha : List QclRow)
    (t_start time_lag_in_day dt_lmargin : ℚ) (f_ch A_ch V_ch_mol : ℚ) :
    Option ℚ × Option ℚ :=
  let conc_of := spc_conc spc_id
  let factor := conc_factor spc_id
  let chc_time := chc.map (fun r => (r.time.getD 0 - t_start) * 86400)
  let m_chb_t :=
    (medianQ (chb.map (fun r => r.time.getD 0 - t_start))).map (fun m => m * 86400)
  let m_cha_t :=
    (medianQ (cha.map (fun r => r.time.getD 0 - t_start))).map (fun m => m * 86400)
  let m_chb_c := omul (nanmedian (chb.map conc_of)) (some factor)
  let m_cha_c := omul (nanmedian (cha.map conc_of)) (some factor)
  let kb := baseline_calc spc_id m_chb_t m_cha_t m_chb_c m_cha_c (chc_time.getLastD 0)
  let conc_bl := chc_time.map (fun t => oadd (omul kb.1 (some t)) kb.2)
  let y_fit := y_fit_list conc_of factor chc conc_bl (f_ch / A_ch)
  let t0 := chc_time.headD 0
  let x_fit := chc_time.map
    (fun t => expf (-(f_ch / V_ch_mol) * (t - t0 + (time_lag_in_day + dt_lmargin) * 86400)))
  let si := lr_slope_intercept x_fit y_fit
  let sd_slope := lr_sd_slope sqrtf x_fit y_fit
  (oneg si.1, oabs sd_slope)

/-- Post-fit sanity checks on the `(flux_ch, sd_flux_ch)` of one species:
check 1 rejects `|flux_ch * A_ch| > 5`; check 2 rejects the whole visit
when the closure-period IQR of COS or of CO2 exceeds 300 (NaN compares
false, as in NumPy). -/
def sanity_filter (flux sd : Option ℚ) (A_ch : ℚ) (cos_iqr co2_iqr : Option ℚ) :
    Option ℚ × Option ℚ :=
  let s1 :=
    if nan_gt (oabs (omul flux (some A_ch))) 5 then ((none : Option ℚ), (none : Option ℚ))
    else (flux, sd)
  if nan_gt cos_iqr 300 || nan_gt co2_iqr 300 then (none, none) else s1

/-- The per-visit flux outputs: per-species flux, flux standard error,
and closure-period IQR diagnostic. -/
structure VisitFluxes where
  flux : Fin 4 → Option ℚ
  sd_flux : Fin 4 → Option ℚ
  chc_iqr : Fin 4 → Option ℚ

/-- The closure-period IQR diagnostic for one species:
`IQR_func(qcl_data[ind_chc][spc] * conc_factor[spc_id])`. -/
def closure_iqr (ind_chc : List QclRow) (spc_id : Fin 4) : Option ℚ :=
  IQR_func (ind_chc.map (fun r => omul (spc_conc spc_id r) (some (conc_factor spc_id))))

/-- The flux part of one daily-loop iteration: select the pre-closure,
closure and post-closure windows (with the extra 30 s skip of the
open-after period for chamber 3), compute the closure IQR diagnostics,
and — when at least two minutes of closure data exist — fit all four
species and apply the two sanity checks; otherwise all fluxes and
standard errors are NaN. -/
def visit_flux_calc (expf sqrtf : ℚ → ℚ) (rows : List QclRow)
    (t_start t_o_b t_cls t_o_a t_end time_lag_in_day dt_lmargin dt_rmargin : ℚ)
    (f_ch A_ch V_ch_mol : ℚ) (ch_no : ℤ) : VisitFluxes :=
  let ind_chb := select_window rows (t_o_b + time_lag_in_day + dt_lmargin)
    (t_cls + time_lag_in_day - dt_rmargin)
  let ind_chc := closure_window rows t_cls t_o_a time_lag_in_day dt_lmargin dt_rmargin
  let ind_cha :=
    if ch_no = 3 then
      select_window rows (t_o_a + time_lag_in_day + 30/86400 + dt_lmargin) t_end
    else select_window rows (t_o_a + time_lag_in_day + dt_lmargin) t_end
  let iqr := fun s => closure_iqr ind_chc s
  if flag_calc_flux ind_chc.length = 1 then
    let fit := fun s => species_fit expf sqrtf s ind_chb ind_chc ind_cha
      t_start time_lag_in_day dt_lmargin f_ch A_ch V_ch_mol
    let filtered := fun s => sanity_filter (fit s).1 (fit s).2 A_ch (iqr 0) (iqr 2)
    ⟨fun s => (filtered s).1, fun s => (filtered s).2, iqr⟩
  else
    ⟨fun _ => none, fun _ => none, iqr⟩

/-! ### Lemmas about the flux fit -/

lemma lr_slope_intercept_nan (xs : List ℚ) (ys : List (Option ℚ))
    (h : ys.any (fun y => y.isNone) = true) :
    lr_slope_intercept xs ys = (none, none) := by
  unfold lr_slope_intercept
  rw [if_pos h]

lemma lr_sd_slope_nan (sqrtf : ℚ → ℚ) (xs : List ℚ) (ys : List (Option ℚ))
    (h : ys.any (fun y => y.isNone) = true) :
    lr_sd_slope sqrtf xs ys = none := by
  unfold lr_sd_slope
  rw [if_pos h]

lemma y_fit_list_any_none (conc_of : QclRow → Option ℚ) (factor : ℚ)
    (chc : List QclRow) (conc_bl : List (Option ℚ)) (fa : ℚ)
    (hlen : chc.length ≤ conc_bl.length)
    (h : ∃ r ∈ chc, conc_of r = none) :
    (y_fit_list conc_of factor chc conc_bl fa).any (fun y => y.isNone) = true := by
  obtain ⟨r, hr, hnone⟩ := h
  obtain ⟨i, hi, hget⟩ := List.getElem_of_mem hr
  rw [y_fit_list, List.any_eq_true]
  have hzlen : i < (chc.zip conc_bl).length := by
    simp only [List.length_zip]
    omega
  refine ⟨_, List.mem_map_of_mem _ (List.getElem_mem hzlen), ?_⟩
  rw [List.getElem_zip]
  simp [hget, hnone, omul, osub, o2]

lemma species_fit_nan (expf sqrtf : ℚ → ℚ) (spc_id : Fin 4)
    (chb chc cha : List QclRow) (t_start lag lm f_ch A_ch V : ℚ)
    (h : ∃ r ∈ chc, spc_conc spc_id r = none) :
    species_fit expf sqrtf spc_id chb chc cha t_start lag lm f_ch A_ch V =
      (none, none) := by
  simp only [species_fit]
  rw [lr_slope_intercept_nan, lr_sd_slope_nan]
  · rfl
  · exact y_fit_list_any_none _ _ _ _ _ (by simp) h
  · exact y_fit_list_any_none _ _ _ _ _ (by simp) h

lemma sanity_filter_none (A : ℚ) (ci c2i : Option ℚ) :
    sanity_filter none none A ci c2i = (none, none) := by
  simp only [sanity_filter, omul, o2, oabs, nan_gt]
  split_ifs <;> rfl

lemma sanity_filter_drift (f s : Option ℚ) (A : ℚ) (ci c2i : Option ℚ)
    (h : (nan_gt ci 300 || nan_gt c2i 300) = true) :
    sanity_filter f s A ci c2i = (none, none) := by
  simp only [sanity_filter]
  rw [if_pos h]

lemma flag_calc_flux_eq_zero (n : ℕ) (h : n < 120) : flag_calc_flux n = 0 := by
  unfold flag_calc_flux
  rw [if_neg]
  push_neg
  have : (n : ℚ) < 120 := by exact_mod_cast h
  linarith

lemma flag_calc_flux_eq_one (n : ℕ) (h : 120 ≤ n) : flag_calc_flux n = 1 := by
  unfold flag_calc_flux
  rw [if_pos]
  have : (120 : ℚ) ≤ (n : ℚ) := by exact_mod_cast h
  linarith

lemma flag_calc_flux_ge (n : ℕ) (h : flag_calc_flux n = 1) : 120 ≤ n := by
  by_contra hc
  push_neg at hc
  rw [flag_calc_flux_eq_zero n hc] at h
  exact absurd h (by norm_num)

lemma visit_flux_calc_pos (expf sqrtf : ℚ → ℚ) (rows : List QclRow)
    (t_start t_o_b t_cls t_o_a t_end lag lm rm f_ch A_ch V : ℚ) (ch_no : ℤ)
    (hflag : flag_calc_flux (closure_window rows t_cls t_o_a lag lm rm).length = 1)
    (s : Fin 4) :
    (visit_flux_calc expf sqrtf rows t_start t_o_b t_cls t_o_a t_end lag lm rm
        f_ch A_ch V ch_no).flux s =
      (sanity_filter
        (species_fit expf sqrtf s
          (select_window rows (t_o_b + lag + lm) (t_cls + lag - rm))
          (closure_window rows t_cls t_o_a lag lm rm)
          (if ch_no = 3 then select_window rows (t_o_a + lag + 30/86400 + lm) t_end
           else select_window rows (t_o_a + lag + lm) t_end)
          t_start lag lm f_ch A_ch V).1
        (species_fit expf sqrtf s
          (select_window rows (t_o_b + lag + lm) (t_cls + lag - rm))
          (closure_window rows t_cls t_o_a lag lm rm)
          (if ch_no = 3 then select_window rows (t_o_a + lag + 30/86400 + lm) t_end
           else select_window rows (t_o_a + lag + lm) t_end)
          t_start lag lm f_ch A_ch V).2
        A_ch (closure_iqr (closure_window rows t_cls t_o_a lag lm rm) 0)
        (closure_iqr (closure_window rows t_cls t_o_a lag lm rm) 2)).1 ∧
    (visit_flux_calc expf sqrtf rows t_start t_o_b t_cls t_o_a t_end lag lm rm
        f_ch A_ch V ch_no).sd_flux s =
      (sanity_filter
        (species_fit expf sqrtf s
          (select_window rows (t_o_b + lag + lm) (t_cls + lag - rm))
          (closure_window rows t_cls t_o_a lag lm rm)
          (if ch_no = 3 then select_window rows (t_o_a + lag + 30/86400 + lm) t_end
           else select_window rows (t_o_a + lag + lm) t_end)
          t_start lag lm f_ch A_ch V).1
        (species_fit expf sqrtf s
          (select_window rows (t_o_b + lag + lm) (t_cls + lag - rm))
          (closure_window rows t_cls t_o_a lag lm rm)
          (if ch_no = 3 then select_window rows (t_o_a + lag + 30/86400 + lm) t_end
           else select_window rows (t_o_a + lag + lm) t_end)
          t_start lag lm f_ch A_ch V).2
        A_ch (closure_iqr (closure_window rows t_cls t_o_a lag lm rm) 0)
        (closure_iqr (closure_window rows t_cls t_o_a lag lm rm) 2)).2 := by
  simp only [visit_flux_calc]
  rw [if_pos hflag]
  exact ⟨rfl, rfl⟩

lemma visit_flux_calc_neg (expf sqrtf : ℚ → ℚ) (rows : List QclRow)
    (t_start t_o_b t_cls t_o_a t_end lag lm rm f_ch A_ch V : ℚ) (ch_no : ℤ)
    (hflag : ¬ flag_calc_flux (closure_window rows t_cls t_o_a lag lm rm).length = 1)
    (s : Fin 4) :
    (visit_flux_calc expf sqrtf rows t_start t_o_b t_cls t_o_a t_end lag lm rm
        f_ch A_ch V ch_no).flux s = none ∧
    (visit_flux_calc expf sqrtf rows t_start t_o_b t_cls t_o_a t_end lag lm rm
        f_ch A_ch V ch_no).sd_flux s = none := by
  simp only [visit_flux_calc]
  rw [if_neg hflag]
  exact ⟨rfl, rfl⟩

lemma visit_flux_calc_iqr (expf sqrtf : ℚ → ℚ) (rows : List QclRow)
    (t_start t_o_b t_cls t_o_a t_end lag lm rm f_ch A_ch V : ℚ) (ch_no : ℤ)
    (s : Fin 4) :
    (visit_flux_calc expf sqrtf rows t_start t_o_b t_cls t_o_a t_end lag lm rm
        f_ch A_ch V ch_no).chc_iqr s =
      closure_iqr (closure_window rows t_cls t_o_a lag lm rm) s := by
  simp only [visit_flux_calc]
  split_ifs <;> rfl

/-- C4: for every chamber visit, whenever fewer than 120 finite
closure-period concentration samples exist for a species, the flux of
that species and flux standard error are NaN — because the fit is skipped
entirely when the closure window holds fewer than 120 samples
(`flag_calc_flux = 0`), and because NaN concentrations poison the
least-squares fit otherwise; and with 120 (finite) closure samples the
fit proceeds (`flag_calc_flux = 1`). -/
theorem C4_minimum_data_policy (expf sqrtf : ℚ → ℚ) (rows : List QclRow)
    (t_start t_o_b t_cls t_o_a t_end lag lm rm f_ch A_ch V : ℚ) (ch_no : ℤ) :
    (∀ s : Fin 4,
      ((closure_window rows t_cls t_o_a lag lm rm).filter
          (fun r => (spc_conc s r).isSome)).length < 120 →
        (visit_flux_calc expf sqrtf rows t_start t_o_b t_cls t_o_a t_end lag lm rm
            f_ch A_ch V ch_no).flux s = none ∧
        (visit_flux_calc expf sqrtf rows t_start t_o_b t_cls t_o_a t_end lag lm rm
            f_ch A_ch V ch_no).sd_flux s = none) ∧
    ((closure_window rows t_cls t_o_a lag lm rm).length < 120 →
      flag_calc_flux (closure_window rows t_cls t_o_a lag lm rm).length = 0) ∧
    (120 ≤ ((closure_window rows t_cls t_o_a lag lm rm).filter
        (fun r => (spc_conc 0 r).isSome && (spc_conc 1 r).isSome &&
          (spc_conc 2 r).isSome && (spc_conc 3 r).isSome)).length →
      flag_calc_flux (closure_window rows t_cls t_o_a lag lm rm).length = 1) := by
  refine ⟨?_, fun h => flag_calc_flux_eq_zero _ h,
    fun h => flag_calc_flux_eq_one _ (le_trans h (List.length_filter_le _ _))⟩
  intro s hlt
  by_cases hflag :
    flag_calc_flux (closure_window rows t_cls t_o_a lag lm rm).length = 1
  · have h120 := flag_calc_flux_ge _ hflag
    have hmiss : ∃ r ∈ closure_window rows t_cls t_o_a lag lm rm,
        spc_conc s r = none := by
      by_contra hc
      push_neg at hc
      rw [List.filter_eq_self.mpr
        (fun r hr => Option.isSome_iff_ne_none.mpr (hc r hr))] at hlt
      omega
    obtain ⟨hfl, hsd⟩ := visit_flux_calc_pos expf sqrtf rows
      t_start t_o_b t_cls t_o_a t_end lag lm rm f_ch A_ch V ch_no hflag s
    rw [hfl, hsd, species_fit_nan _ _ _ _ _ _ _ _ _ _ _ _ hmiss]
    constructor
    · show (sanity_filter none none A_ch _ _).1 = none
      rw [sanity_filter_none]
    · show (sanity_filter none none A_ch _ _).2 = none
      rw [sanity_filter_none]
  · exact visit_flux_calc_neg expf sqrtf rows
      t_start t_o_b t_cls t_o_a t_end lag lm rm f_ch A_ch V ch_no hflag s

/-- Rows used by the C4 witness: 120 closure samples, all finite. -/
def rows120 : List QclRow :=
  List.replicate 120 ⟨some 0.5, some 1, some 1, some 1, some 1⟩

/-- Witness for C4: with no data at all (0 < 120 finite closure samples)
the COS flux is NaN and the fit is skipped; with 120 finite closure
samples the fit proceeds. -/
theorem C4_minimum_data_policy_witness :
    (visit_flux_calc (fun _ => 0) (fun _ => 0) [] 0 0 0 1 2 0 0 0 1 1 1 1).flux 0 =
      none ∧
    flag_calc_flux (closure_window [] 0 1 0 0 0).length = 0 ∧
    flag_calc_flux (closure_window rows120 0 1 0 0 0).length = 1 := by
  refine ⟨((C4_minimum_data_policy (fun _ => 0) (fun _ => 0) [] 0 0 0 1 2 0 0 0
      1 1 1 1).1 0 (by simp [closure_window, select_window])).1,
    (C4_minimum_data_policy (fun _ => 0) (fun _ => 0) [] 0 0 0 1 2 0 0 0
      1 1 1 1).2.1 (by simp [closure_window, select_window]),
    (C4_minimum_data_policy (fun _ => 0) (fun _ => 0) rows120 0 0 0 1 2 0 0 0
      1 1 1 1).2.2 ?_⟩
  rw [closure_window, select_window, rows120, List.filter_replicate]
  norm_num [time_in_window, spc_conc, List.filter_replicate]

/-- C5: the post-fit magnitude check on every fitted species flux is the
strict test `|flux·A_ch| > 5`: above it the flux and its standard error
are set to NaN, and at or below it (absent a drift rejection) both are
kept unchanged — so area-scaled magnitude 4.99 is retained. -/
theorem C5_flux_magnitude_bound (f : ℚ) (sd : Option ℚ) (A : ℚ)
    (ci c2i : Option ℚ) :
    (|f * A| > 5 → sanity_filter (some f) sd A ci c2i = (none, none)) ∧
    (|f * A| ≤ 5 → (nan_gt ci 300 || nan_gt c2i 300) = false →
      sanity_filter (some f) sd A ci c2i = (some f, sd)) := by
  constructor
  · intro h5
    have hc1 : nan_gt (oabs (omul (some f) (some A))) 5 = true := by
      simp [omul, o2, oabs, nan_gt]
      exact h5
    simp only [sanity_filter, hc1]
    split_ifs <;> rfl
  · intro h5 hiqr
    have hc1 : nan_gt (oabs (omul (some f) (some A))) 5 = false := by
      simp [omul, o2, oabs, nan_gt, not_lt]
      exact h5
    simp [sanity_filter, hc1, hiqr]

/-- Witness for C5: with unit area and no drift, a flux of 5.01 is
nulled and a flux of 4.99 is retained together with its standard error. -/
theorem C5_flux_magnitude_bound_witness :
    sanity_filter (some 5.01) (some 0.1) 1 none none = (none, none) ∧
    sanity_filter (some 4.99) (some 0.1) 1 none none = (some 4.99, some 0.1) := by
  constructor
  · exact (C5_flux_magnitude_bound 5.01 (some 0.1) 1 none none).1
      (by rw [abs_of_nonneg] <;> norm_num)
  · exact (C5_flux_magnitude_bound 4.99 (some 0.1) 1 none none).2
      (by rw [abs_of_nonneg] <;> norm_num) rfl

/-- C6: if the closure-period interquartile range of the raw COS or CO2
concentration (in reporting units) exceeds 300, then the fluxes and flux
standard errors of all four species of that visit are NaN, regardless of
which species triggered the threshold. -/
theorem C6_drift_rejects_whole_visit (expf sqrtf : ℚ → ℚ) (rows : List QclRow)
    (t_start t_o_b t_cls t_o_a t_end lag lm rm f_ch A_ch V : ℚ) (ch_no : ℤ)
    (hdrift :
      (nan_gt (closure_iqr (closure_window rows t_cls t_o_a lag lm rm) 0) 300 ||
       nan_gt (closure_iqr (closure_window rows t_cls t_o_a lag lm rm) 2) 300) =
        true) :
    ∀ s : Fin 4,
      (visit_flux_calc expf sqrtf rows t_start t_o_b t_cls t_o_a t_end lag lm rm
          f_ch A_ch V ch_no).flux s = none ∧
      (visit_flux_calc expf sqrtf rows t_start t_o_b t_cls t_o_a t_end lag lm rm
          f_ch A_ch V ch_no).sd_flux s = none := by
  intro s
  by_cases hflag :
    flag_calc_flux (closure_window rows t_cls t_o_a lag lm rm).length = 1
  · obtain ⟨hfl, hsd⟩ := visit_flux_calc_pos expf sqrtf rows
      t_start t_o_b t_cls t_o_a t_end lag lm rm f_ch A_ch V ch_no hflag s
    rw [hfl, hsd, sanity_filter_drift _ _ _ _ _ hdrift]
    exact ⟨rfl, rfl⟩
  · exact visit_flux_calc_neg expf sqrtf rows
      t_start t_o_b t_cls t_o_a t_end lag lm rm f_ch A_ch V ch_no hflag s

/-- Rows used by the C6 witness: two closure samples whose raw COS
values 0 and 1 scale to 0 and 1000 pptv, an IQR of 500 > 300. -/
def rows_drift : List QclRow :=
  [⟨some 0.25, some 0, some 0, some 0, some 0⟩,
   ⟨some 0.75, some 1, some 0, some 0, some 0⟩]

/-- Witness for C6: a visit whose closure COS IQR is 500 has all four
species fluxes and standard errors NaN. -/
theorem C6_drift_rejects_whole_visit_witness :
    ((visit_flux_calc (fun _ => 0) (fun _ => 0) rows_drift 0 0 0 1 2 0 0 0
        1 1 1 1).flux 0 = none ∧
     (visit_flux_calc (fun _ => 0) (fun _ => 0) rows_drift 0 0 0 1 2 0 0 0
        1 1 1 1).sd_flux 0 = none) ∧
    ((visit_flux_calc (fun _ => 0) (fun _ => 0) rows_drift 0 0 0 1 2 0 0 0
        1 1 1 1).flux 1 = none ∧
     (visit_flux_calc (fun _ => 0) (fun _ => 0) rows_drift 0 0 0 1 2 0 0 0
        1 1 1 1).sd_flux 1 = none) ∧
    ((visit_flux_calc (fun _ => 0) (fun _ => 0) rows_drift 0 0 0 1 2 0 0 0
        1 1 1 1).flux 2 = none ∧
     (visit_flux_calc (fun _ => 0) (fun _ => 0) rows_drift 0 0 0 1 2 0 0 0
        1 1 1 1).sd_flux 2 = none) ∧
    ((visit_flux_calc (fun _ => 0) (fun _ => 0) rows_drift 0 0 0 1 2 0 0 0
        1 1 1 1).flux 3 = none ∧
     (visit_flux_calc (fun _ => 0) (fun _ => 0) rows_drift 0 0 0 1 2 0 0 0
        1 1 1 1).sd_flux 3 = none) := by
  have hdrift :
      (nan_gt (closure_iqr (closure_window rows_drift 0 1 0 0 0) 0) 300 ||
       nan_gt (closure_iqr (closure_window rows_drift 0 1 0 0 0) 2) 300) = true := by
    rw [closure_window, select_window, rows_drift]
    norm_num [time_in_window, closure_iqr, spc_conc, conc_factor, IQR_func,
      List.filter, omul, o2, sortQ, insertSorted, percentileSorted, nan_gt,
      List.filterMap, List.foldr, List.getD]
  have h := C6_drift_rejects_whole_visit (fun _ => 0) (fun _ => 0) rows_drift
    0 0 0 1 2 0 0 0 1 1 1 1 hdrift
  exact ⟨h 0, h 1, h 2, h 3⟩

/-- C7: the baseline slope used for the water-vapor fit is exactly zero
for every input (regardless of pre/post-closure drift); and for any
species, when the post-closure median concentration is entirely
non-finite, the pre-closure median is substituted for it, forcing the
baseline slope to zero (the pre-closure median being finite and the
substituted time distinct from the pre-closure median time). -/
theorem C7_water_baseline_slope_zero :
    (∀ (m_chb_t m_cha_t m_chb_c m_cha_c : Option ℚ) (chc_last_t : ℚ),
      (baseline_calc 3 m_chb_t m_cha_t m_chb_c m_cha_c chc_last_t).1 = some 0) ∧
    (∀ (spc_id : Fin 4) (tb cb chc_last_t : ℚ) (m_cha_t : Option ℚ),
      chc_last_t ≠ tb →
      (baseline_calc spc_id (some tb) m_cha_t (some cb) none chc_last_t).1 =
        some 0) := by
  constructor
  · intro mbt mat mbc mac lt
    simp [baseline_calc]
  · intro s tb cb lt mat hne
    by_cases hs : s = (3 : Fin 4)
    · simp [baseline_calc, hs]
    · simp [baseline_calc, hs, osub, omul, odiv, o2, sub_ne_zero.mpr hne]

/-- Witness for C7: a water baseline with strong drift between the two
medians still has slope zero; a COS baseline whose post-closure median
is NaN gets slope zero by substitution. -/
theorem C7_water_baseline_slope_zero_witness :
    (baseline_calc 3 (some 10) (some 400) (some 1) (some 99) 300).1 = some 0 ∧
    (baseline_calc 0 (some 10) none (some 2) none 300).1 = some 0 :=
  ⟨C7_water_baseline_slope_zero.1 (some 10) (some 400) (some 1) (some 99) 300,
   C7_water_baseline_slope_zero.2 0 10 2 300 none (by norm_num)⟩

end Hyy16
